import Mathlib

/-!
Verification of the MFA orchestration core of `packages/app/src/lib/platform.ts`
(class `WebPlatform`): the capability registry (`supportsAuthType`), the
registration orchestrator (`registerAuthenticator`), the authentication
orchestrator (`getAuthToken`), the strategy dispatchers
(`_prepareRegisterMFAuthenticator`, `_prepareCompleteAuthRequest`) and the
platform-authenticator convenience path (`registerPlatformAuthenticator`).

The source's async calls to the remote authority (`app.api.*`), the interactive
prompt and the backend strategy clients are modelled by an explicit environment
(`Env`) of oracles; each orchestrator returns its result together with the
ordered trace of remote-authority calls it made, so that frame properties
("no `deleteAuthenticator` call is ever made") are statable.
-/

namespace Padloc

/-- AuthType, from `@padloc/core/src/mfa` (not part of the source tree).
Modelled from the spec (§3, closed set of authenticator kinds) and from the
five kinds the source file actually names: `Email`, `Totp`,
`WebAuthnPlatform`, `WebAuthnPortable`, `OpenID`. -/
inductive AuthType
  | email
  | totp
  | webAuthnPlatform
  | webAuthnPortable
  | openID
deriving DecidableEq, Repr

/-- AuthPurpose, from `@padloc/core/src/mfa` (not part of the source tree).
Modelled from the spec (§3, closed set of purposes); the orchestrators only
pass purposes through, so the exact constructor set is irrelevant to them. -/
inductive AuthPurpose
  | signup
  | login
  | recover
deriving DecidableEq, Repr

/-- Error codes, from `@padloc/core/src/error` (not part of the source tree).
Modelled from the spec (§7 error taxonomy): the two codes the source file
raises (`AUTHENTICATION_FAILED`, `NOT_SUPPORTED`) plus a code standing for
remote/transport failures produced by the remote authority. -/
inductive ErrorCode
  | authenticationFailed
  | notSupported
  | serverError
deriving DecidableEq, Repr

/-- An `Err` as thrown by the source: an error code plus a message
(`new Err(ErrorCode.NOT_SUPPORTED)` carries an empty message). -/
structure Err where
  code : ErrorCode
  message : String := ""
deriving DecidableEq, Repr

/-- Opaque backend-specific payload (server challenge data, client response
data). The orchestrators never interpret it, only forward it. -/
abbrev Data := String

/-- Opaque device-info value (the orchestrators only forward it). -/
abbrev DeviceInfo := String

/-- Parameters of `startRegisterAuthenticator` (`StartRegisterAuthenticatorParams`). -/
structure StartRegisterAuthenticatorParams where
  purposes : List AuthPurpose
  type : AuthType
  data : Option Data
  device : Option DeviceInfo
deriving DecidableEq, Repr

/-- Response of `startRegisterAuthenticator`: id, type and challenge data
(the fields the source reads: `res.id`, `res.type`, `res.data`). -/
structure StartRegisterAuthenticatorResponse where
  id : String
  type : AuthType
  data : Data
deriving DecidableEq, Repr

/-- Parameters of `completeRegisterAuthenticator`
(`CompleteRegisterMFAuthenticatorParams`). -/
structure CompleteRegisterMFAuthenticatorParams where
  id : String
  data : Data
deriving DecidableEq, Repr

/-- Parameters of `startAuthRequest` (`StartAuthRequestParams`). -/
structure StartAuthRequestParams where
  email : Option String
  type : Option AuthType
  purpose : AuthPurpose
  authenticatorId : Option String
  authenticatorIndex : Option Nat
deriving DecidableEq, Repr

/-- Response of `startAuthRequest`: the fields the source reads are `res.id`,
`res.type`, `res.data` and `res.token` (the token the flow ultimately
returns). -/
structure StartAuthRequestResponse where
  id : String
  type : AuthType
  data : Data
  token : String
deriving DecidableEq, Repr

/-- Parameters of `completeAuthRequest` (`CompleteAuthRequestParams`). -/
structure CompleteAuthRequestParams where
  id : String
  data : Data
  email : Option String
deriving DecidableEq, Repr

/-- One remote-authority call, recorded in the order the orchestrators make
them. -/
inductive ApiCall
  | startRegisterAuthenticator (p : StartRegisterAuthenticatorParams)
  | completeRegisterAuthenticator (p : CompleteRegisterMFAuthenticatorParams)
  | deleteAuthenticator (id : String)
  | startAuthRequest (p : StartAuthRequestParams)
  | completeAuthRequest (p : CompleteAuthRequestParams)
deriving DecidableEq, Repr

/-- The environment of a single orchestration call: the remote-authority
client (`app.api`), the interactive prompt, and the backend strategy clients
(`webAuthnClient`, `OpenIDClient`). Each flow makes at most one interactive
prompt call, so the user's answer is a single `Option String`
(`none` = user canceled the dialog).

Modelled from the spec where the collaborator is outside the source tree:
`completeAuthRequest` yields a token per §6 (`complete-auth-request(id, data,
email?) -> AuthToken`); the strategy clients return response data, may report
abandonment (`none`) or throw (§4.2). -/
structure Env where
  startRegisterAuthenticator :
    StartRegisterAuthenticatorParams → Except Err StartRegisterAuthenticatorResponse
  completeRegisterAuthenticator :
    CompleteRegisterMFAuthenticatorParams → Except Err Unit
  deleteAuthenticator : String → Except Err Unit
  startAuthRequest : StartAuthRequestParams → Except Err StartAuthRequestResponse
  completeAuthRequest : CompleteAuthRequestParams → Except Err String
  prompt : Option String
  webAuthnSupportsType : AuthType → Bool
  webAuthnPrepareRegistration : Data → Except Err (Option Data)
  webAuthnPrepareAuthentication : Data → Except Err (Option Data)
  openIdPrepareRegistration : Data → Except Err (Option Data)
  openIdPrepareAuthentication : Data → Except Err (Option Data)

/-- `supportsAuthType(type)` (platform.ts:172-180): the supported list is
`[Email, Totp]` plus those of `[WebAuthnPlatform, WebAuthnPortable]` for which
`webAuthnClient.supportsType` holds; the result is membership of `type` in
that list. -/
def supportsAuthType (env : Env) (type : AuthType) : Bool :=
  let types := [AuthType.email, AuthType.totp] ++
    ([AuthType.webAuthnPlatform, AuthType.webAuthnPortable].filter
      fun t => env.webAuthnSupportsType t)
  types.contains type

/-- `_prepareRegisterMFAuthenticator({data, type})` (platform.ts:182-234):
dispatch on the start-response's `type`. WebAuthn kinds call
`webAuthnClient.prepareRegistration(data, undefined)`; `Email` and `Totp`
prompt the user and return `{code}` when the answer is truthy, `null`
otherwise (a `null` or empty-string answer is falsy in JS, hence `none`);
`OpenID` calls `OpenIDClient.prepareRegistration(data, undefined)`. The
source's `default` branch is unreachable over the closed `AuthType` set. -/
def _prepareRegisterMFAuthenticator (env : Env)
    (res : StartRegisterAuthenticatorResponse) : Except Err (Option Data) :=
  match res.type with
  | .webAuthnPlatform | .webAuthnPortable => env.webAuthnPrepareRegistration res.data
  | .email =>
      .ok (match env.prompt with
           | some code => if code = "" then none else some code
           | none => none)
  | .totp =>
      .ok (match env.prompt with
           | some code2 => if code2 = "" then none else some code2
           | none => none)
  | .openID => env.openIdPrepareRegistration res.data

/-- The `try` block of `registerAuthenticator` (platform.ts:250-258): prepare
via the strategy dispatcher; a falsy prepare result raises
`AUTHENTICATION_FAILED("Setup Canceled")`; otherwise call
`completeRegisterAuthenticator({id: res.id, data: prepData})` and return
`res.id`. The trace records the calls made inside the block. -/
def registerTry (env : Env) (res : StartRegisterAuthenticatorResponse) :
    Except Err String × List ApiCall :=
  match _prepareRegisterMFAuthenticator env res with
  | .error e => (.error e, [])
  | .ok none => (.error ⟨.authenticationFailed, "Setup Canceled"⟩, [])
  | .ok (some prepData) =>
      match env.completeRegisterAuthenticator ⟨res.id, prepData⟩ with
      | .error e =>
          (.error e, [.completeRegisterAuthenticator ⟨res.id, prepData⟩])
      | .ok _ =>
          (.ok res.id, [.completeRegisterAuthenticator ⟨res.id, prepData⟩])

/-- `registerAuthenticator({purposes, type, data, device})`
(platform.ts:236-263): call `startRegisterAuthenticator` unconditionally,
then run the `try` block; on any failure of the block, `catch (e)` awaits
`deleteAuthenticator(res.id)` and rethrows `e` — note the `await` is not
guarded, so a rejection of the delete call replaces `e` as the caller-visible
error. -/
def registerAuthenticator (env : Env) (purposes : List AuthPurpose)
    (type : AuthType) (data : Option Data) (device : Option DeviceInfo) :
    Except Err String × List ApiCall :=
  let params : StartRegisterAuthenticatorParams := ⟨purposes, type, data, device⟩
  match env.startRegisterAuthenticator params with
  | .error e => (.error e, [.startRegisterAuthenticator params])
  | .ok res =>
      match registerTry env res with
      | (.ok i, calls) => (.ok i, .startRegisterAuthenticator params :: calls)
      | (.error e, calls) =>
          match env.deleteAuthenticator res.id with
          | .ok _ =>
              (.error e,
               .startRegisterAuthenticator params ::
                 (calls ++ [.deleteAuthenticator res.id]))
          | .error e2 =>
              (.error e2,
               .startRegisterAuthenticator params ::
                 (calls ++ [.deleteAuthenticator res.id]))

/-- `_prepareCompleteAuthRequest({data, type})` (platform.ts:265-302): same
dispatch shape as registration, with `webAuthnClient.prepareAuthentication`
and `OpenIDClient.prepareAuthentication` for the non-prompt kinds. -/
def _prepareCompleteAuthRequest (env : Env) (res : StartAuthRequestResponse) :
    Except Err (Option Data) :=
  match res.type with
  | .webAuthnPlatform | .webAuthnPortable => env.webAuthnPrepareAuthentication res.data
  | .email =>
      .ok (match env.prompt with
           | some code => if code = "" then none else some code
           | none => none)
  | .totp =>
      .ok (match env.prompt with
           | some code2 => if code2 = "" then none else some code2
           | none => none)
  | .openID => env.openIdPrepareAuthentication res.data

/-- `getAuthToken({purpose, type, email, authenticatorId, authenticatorIndex})`
(platform.ts:304-330): call `startAuthRequest` unconditionally; dispatch
prepare on the response's `type`; a falsy prepare result raises
`AUTHENTICATION_FAILED("Request was canceled.")`; otherwise call
`completeAuthRequest({id: res.id, data, email})` and return `res.token` —
the token of the *start* response (the complete call's value is discarded).
The `email` argument stands for the already-defaulted
`email = app.account?.email` of the source. -/
def getAuthToken (env : Env) (purpose : AuthPurpose) (type : Option AuthType)
    (email : Option String) (authenticatorId : Option String)
    (authenticatorIndex : Option Nat) : Except Err String × List ApiCall :=
  let params : StartAuthRequestParams :=
    ⟨email, type, purpose, authenticatorId, authenticatorIndex⟩
  match env.startAuthRequest params with
  | .error e => (.error e, [.startAuthRequest params])
  | .ok res =>
      match _prepareCompleteAuthRequest env res with
      | .error e => (.error e, [.startAuthRequest params])
      | .ok none =>
          (.error ⟨.authenticationFailed, "Request was canceled."⟩,
           [.startAuthRequest params])
      | .ok (some data) =>
          match env.completeAuthRequest ⟨res.id, data, email⟩ with
          | .error e =>
              (.error e,
               [.startAuthRequest params,
                .completeAuthRequest ⟨res.id, data, email⟩])
          | .ok _token =>
              (.ok res.token,
               [.startAuthRequest params,
                .completeAuthRequest ⟨res.id, data, email⟩])

/-- `readonly platformAuthType: AuthType | null = AuthType.WebAuthnPlatform`
(platform.ts:332): a constant of the class, not a function of device state. -/
def platformAuthType : Option AuthType := some AuthType.webAuthnPlatform

/-- `supportsPlatformAuthenticator()` (platform.ts:334-336). -/
def supportsPlatformAuthenticator (env : Env) : Bool :=
  supportsAuthType env AuthType.webAuthnPlatform

/-- `registerPlatformAuthenticator(purposes)` (platform.ts:338-347): throw
`NOT_SUPPORTED` iff `platformAuthType` is null; otherwise run
`registerAuthenticator` with that type and the current device info
(`app.state.device`, passed here explicitly). -/
def registerPlatformAuthenticator (env : Env) (purposes : List AuthPurpose)
    (device : Option DeviceInfo) : Except Err String × List ApiCall :=
  match platformAuthType with
  | none => (.error ⟨.notSupported, ""⟩, [])
  | some t => registerAuthenticator env purposes t none device

/-- The sublist of `deleteAuthenticator` calls of a trace. -/
def deleteCalls (trace : List ApiCall) : List ApiCall :=
  trace.filter fun c =>
    match c with
    | .deleteAuthenticator _ => true
    | _ => false

/-- A concrete environment in which every external call succeeds: Start
returns id `"abc"` (registration) resp. id `"req1"` with token `"t1"`
(authentication), the user answers `"123456"` to prompts, the strategy
clients succeed, Complete-auth yields token `"t2"`, and the WebAuthn client
reports no supported types (so the capability registry reports neither
WebAuthn kind). -/
def okEnv : Env where
  startRegisterAuthenticator := fun p => .ok ⟨"abc", p.type, "challenge"⟩
  completeRegisterAuthenticator := fun _ => .ok ()
  deleteAuthenticator := fun _ => .ok ()
  startAuthRequest := fun p => .ok ⟨"req1", p.type.getD AuthType.email, "challenge", "t1"⟩
  completeAuthRequest := fun _ => .ok "t2"
  prompt := some "123456"
  webAuthnSupportsType := fun _ => false
  webAuthnPrepareRegistration := fun _ => .ok (some "attestation")
  webAuthnPrepareAuthentication := fun _ => .ok (some "assertion")
  openIdPrepareRegistration := fun _ => .ok (some "idtoken")
  openIdPrepareAuthentication := fun _ => .ok (some "idtoken")

/-- Like `okEnv` but the Complete-registration call fails with a transport
error; the rollback delete still succeeds. -/
def envFailComplete : Env :=
  { okEnv with completeRegisterAuthenticator :=
      fun _ => .error ⟨.serverError, "transport failed"⟩ }

/-- Like `okEnv` but the Complete-registration call fails with a transport
error and the rollback delete call also fails. -/
def envFailCompleteDelete : Env :=
  { okEnv with
    completeRegisterAuthenticator := fun _ => .error ⟨.serverError, "transport failed"⟩,
    deleteAuthenticator := fun _ => .error ⟨.serverError, "rollback failed"⟩ }

/-- Like `okEnv` but the user cancels the interactive prompt. -/
def envCancel : Env :=
  { okEnv with prompt := none }

/-- Like `okEnv` but the user cancels the interactive prompt and the rollback
delete call fails. -/
def envCancelDeleteFails : Env :=
  { okEnv with
    prompt := none,
    deleteAuthenticator := fun _ => .error ⟨.serverError, "boom"⟩ }

/-- C1, counterexample: `AuthType.openID` is reported unsupported by
`supportsAuthType`, yet `registerAuthenticator` with explicit type `openID`
does not fail with `NotSupported` — it makes the `startRegisterAuthenticator`
remote call as its very first action and here even completes successfully;
likewise `getAuthToken` with explicit type `openID` makes the
`startAuthRequest` remote call and succeeds. -/
theorem C1_counterexample :
    supportsAuthType okEnv AuthType.openID = false ∧
    (registerAuthenticator okEnv [AuthPurpose.login] AuthType.openID none none).1
      = .ok "abc" ∧
    (registerAuthenticator okEnv [AuthPurpose.login] AuthType.openID none none).2.head?
      = some (ApiCall.startRegisterAuthenticator
          ⟨[AuthPurpose.login], AuthType.openID, none, none⟩) ∧
    (getAuthToken okEnv AuthPurpose.login (some AuthType.openID) none none none).1
      = .ok "t1" ∧
    (getAuthToken okEnv AuthPurpose.login (some AuthType.openID) none none none).2.head?
      = some (ApiCall.startAuthRequest
          ⟨none, some AuthType.openID, AuthPurpose.login, none, none⟩) :=
  ⟨rfl, rfl, rfl, rfl, rfl⟩

/-- C1 (amended): neither orchestrator consults `supportsAuthType` — for every
environment and every explicit `AuthType`, the first remote-authority call of
`registerAuthenticator` is `startRegisterAuthenticator` and the first remote
call of `getAuthToken` is `startAuthRequest`; no proactive `NotSupported`
guard exists. -/
theorem C1_start_call_unconditional (env : Env) (purposes : List AuthPurpose)
    (type : AuthType) (data : Option Data) (device : Option DeviceInfo)
    (purpose : AuthPurpose) (atype : Option AuthType) (email : Option String)
    (aid : Option String) (aidx : Option Nat) :
    (registerAuthenticator env purposes type data device).2.head?
      = some (ApiCall.startRegisterAuthenticator ⟨purposes, type, data, device⟩) ∧
    (getAuthToken env purpose atype email aid aidx).2.head?
      = some (ApiCall.startAuthRequest ⟨email, atype, purpose, aid, aidx⟩) := by
  constructor
  · cases h1 : env.startRegisterAuthenticator ⟨purposes, type, data, device⟩ with
    | error e => simp [registerAuthenticator, h1]
    | ok res =>
        rcases hr : registerTry env res with ⟨r, calls⟩
        cases r with
        | ok i => simp [registerAuthenticator, h1, hr]
        | error e =>
            cases hdel : env.deleteAuthenticator res.id <;>
              simp [registerAuthenticator, h1, hr, hdel]
  · cases h1 : env.startAuthRequest ⟨email, atype, purpose, aid, aidx⟩ with
    | error e => simp [getAuthToken, h1]
    | ok res =>
        cases h2 : _prepareCompleteAuthRequest env res with
        | error e => simp [getAuthToken, h1, h2]
        | ok o =>
            cases o with
            | none => simp [getAuthToken, h1, h2]
            | some d =>
                cases h3 : env.completeAuthRequest ⟨res.id, d, email⟩ <;>
                  simp [getAuthToken, h1, h2, h3]

/-- C2, counterexample: the Complete-registration call fails with the
transport error `"transport failed"`, the rollback delete also fails (with
`"rollback failed"`), and the caller receives the rollback failure — the
original Prepare/Complete failure is masked, not the rollback failure
suppressed. -/
theorem C2_counterexample :
    envFailCompleteDelete.completeRegisterAuthenticator ⟨"abc", "123456"⟩
      = .error ⟨ErrorCode.serverError, "transport failed"⟩ ∧
    (registerAuthenticator envFailCompleteDelete [AuthPurpose.login] AuthType.totp none none).1
      = .error ⟨ErrorCode.serverError, "rollback failed"⟩ ∧
    (⟨ErrorCode.serverError, "rollback failed"⟩ : Err)
      ≠ ⟨ErrorCode.serverError, "transport failed"⟩ :=
  ⟨rfl, rfl, by decide⟩

/-- C2 (amended): when the `try` block of a registration flow fails with
error `e`, the caller receives `e` only if the rollback
`deleteAuthenticator(res.id)` succeeds; if the rollback itself fails with
`e2`, the caller receives `e2`, which masks the original failure (the
unguarded `await` in the `catch` block replaces the rethrown error). -/
theorem C2_rollback_failure_masks_original (env : Env) (purposes : List AuthPurpose)
    (type : AuthType) (data : Option Data) (device : Option DeviceInfo)
    (res : StartRegisterAuthenticatorResponse) (e : Err)
    (h1 : env.startRegisterAuthenticator ⟨purposes, type, data, device⟩ = .ok res)
    (h2 : (registerTry env res).1 = .error e) :
    (∀ u : Unit, env.deleteAuthenticator res.id = .ok u →
      (registerAuthenticator env purposes type data device).1 = .error e) ∧
    (∀ e2 : Err, env.deleteAuthenticator res.id = .error e2 →
      (registerAuthenticator env purposes type data device).1 = .error e2) := by
  rcases hr : registerTry env res with ⟨r, calls⟩
  rw [hr] at h2
  simp only at h2
  subst h2
  constructor
  · intro u hdel
    simp [registerAuthenticator, h1, hr, hdel]
  · intro e2 hdel
    simp [registerAuthenticator, h1, hr, hdel]

/-- C2, witness: concrete flow in which Complete fails and the rollback
delete succeeds — the caller receives the original transport error. -/
theorem C2_witness :
    envFailComplete.startRegisterAuthenticator ⟨[AuthPurpose.login], AuthType.totp, none, none⟩
      = .ok ⟨"abc", AuthType.totp, "challenge"⟩ ∧
    (registerAuthenticator envFailComplete [AuthPurpose.login] AuthType.totp none none).1
      = .error ⟨ErrorCode.serverError, "transport failed"⟩ :=
  ⟨rfl,
   (C2_rollback_failure_masks_original envFailComplete [AuthPurpose.login] AuthType.totp
      none none ⟨"abc", AuthType.totp, "challenge"⟩
      ⟨ErrorCode.serverError, "transport failed"⟩ rfl rfl).1 () rfl⟩

/-- C3, counterexample: the capability registry reports no platform-biometric
support (`supportsPlatformAuthenticator` is false), yet
`registerPlatformAuthenticator` does not reject with `NotSupported`: it makes
the `startRegisterAuthenticator` remote call and here even succeeds. -/
theorem C3_counterexample :
    supportsPlatformAuthenticator okEnv = false ∧
    (registerPlatformAuthenticator okEnv [AuthPurpose.login] (some "device")).1
      = .ok "abc" ∧
    (registerPlatformAuthenticator okEnv [AuthPurpose.login] (some "device")).2.head?
      = some (ApiCall.startRegisterAuthenticator
          ⟨[AuthPurpose.login], AuthType.webAuthnPlatform, none, some "device"⟩) :=
  ⟨rfl, rfl, rfl⟩

/-- C3 (amended): `registerPlatformAuthenticator` guards only on
`platformAuthType` being non-null; in `WebPlatform` that field is the
constant `WebAuthnPlatform`, so the guard never fires and the operation
always runs the registration orchestrator with `WebAuthnPlatform` and the
given device info — without consulting the capability registry. -/
theorem C3_platform_guard_is_constant (env : Env) (purposes : List AuthPurpose)
    (device : Option DeviceInfo) :
    platformAuthType = some AuthType.webAuthnPlatform ∧
    registerPlatformAuthenticator env purposes device
      = registerAuthenticator env purposes AuthType.webAuthnPlatform none device :=
  ⟨rfl, rfl⟩

/-- C4, counterexample: the Complete-auth call produces token `"t2"`, but
`getAuthToken` resolves to `"t1"` — the token of the Start response, not the
value produced by `completeAuthRequest`. -/
theorem C4_counterexample :
    okEnv.completeAuthRequest ⟨"req1", "123456", none⟩ = .ok "t2" ∧
    (getAuthToken okEnv AuthPurpose.login none none none none).1 = .ok "t1" ∧
    ("t1" : String) ≠ "t2" :=
  ⟨rfl, rfl, by decide⟩

/-- C4 (amended): in every authentication flow that reaches Complete and
succeeds, `getAuthToken` returns the `token` field of the
`startAuthRequest` response verbatim; the value produced by the (required,
successful) `completeAuthRequest` call is discarded. -/
theorem C4_token_from_start_response (env : Env) (purpose : AuthPurpose)
    (type : Option AuthType) (email : Option String) (aid : Option String)
    (aidx : Option Nat) (res : StartAuthRequestResponse) (d : Data) (tok : String)
    (h1 : env.startAuthRequest ⟨email, type, purpose, aid, aidx⟩ = .ok res)
    (h2 : _prepareCompleteAuthRequest env res = .ok (some d))
    (h3 : env.completeAuthRequest ⟨res.id, d, email⟩ = .ok tok) :
    (getAuthToken env purpose type email aid aidx).1 = .ok res.token := by
  simp [getAuthToken, h1, h2, h3]

/-- C4, witness: concrete successful flow — Start carries token `"t1"`,
Complete succeeds (producing `"t2"`), and the caller gets `"t1"`. -/
theorem C4_witness :
    okEnv.completeAuthRequest ⟨"req1", "123456", none⟩ = .ok "t2" ∧
    (getAuthToken okEnv AuthPurpose.login none none none none).1 = .ok "t1" :=
  ⟨rfl,
   C4_token_from_start_response okEnv AuthPurpose.login none none none none
     ⟨"req1", AuthType.email, "challenge", "t1"⟩ "123456" "t2" rfl rfl rfl⟩

/-- C5: in every registration flow that reached `Prepared` (the dispatcher
returned response data) but whose Complete call fails, the trace contains
exactly one `deleteAuthenticator` call, and its argument is the `id` of the
`startRegisterAuthenticator` response. -/
theorem C5_complete_failure_single_rollback (env : Env) (purposes : List AuthPurpose)
    (type : AuthType) (data : Option Data) (device : Option DeviceInfo)
    (res : StartRegisterAuthenticatorResponse) (prep : Data) (e : Err)
    (h1 : env.startRegisterAuthenticator ⟨purposes, type, data, device⟩ = .ok res)
    (h2 : _prepareRegisterMFAuthenticator env res = .ok (some prep))
    (h3 : env.completeRegisterAuthenticator ⟨res.id, prep⟩ = .error e) :
    deleteCalls (registerAuthenticator env purposes type data device).2
      = [ApiCall.deleteAuthenticator res.id] := by
  cases hdel : env.deleteAuthenticator res.id <;>
    simp [registerAuthenticator, registerTry, deleteCalls, h1, h2, h3, hdel]

/-- C5, witness: concrete flow in which Complete fails — one rollback call
with the Start id `"abc"`. -/
theorem C5_witness :
    envFailComplete.startRegisterAuthenticator ⟨[AuthPurpose.login], AuthType.totp, none, none⟩
      = .ok ⟨"abc", AuthType.totp, "challenge"⟩ ∧
    deleteCalls (registerAuthenticator envFailComplete [AuthPurpose.login] AuthType.totp none none).2
      = [ApiCall.deleteAuthenticator "abc"] :=
  ⟨rfl,
   C5_complete_failure_single_rollback envFailComplete [AuthPurpose.login] AuthType.totp
     none none ⟨"abc", AuthType.totp, "challenge"⟩ "123456"
     ⟨ErrorCode.serverError, "transport failed"⟩ rfl rfl rfl⟩

/-- C6, counterexample: Prepare reports abandoned (prompt canceled) and the
rollback delete call itself fails — `deleteAuthenticator` is called, but the
caller-visible error is the rollback failure (`serverError "boom"`), not
`AuthenticationFailed("Setup Canceled")` as the claim requires for every such
flow. -/
theorem C6_counterexample :
    _prepareRegisterMFAuthenticator envCancelDeleteFails ⟨"abc", AuthType.totp, "challenge"⟩
      = .ok none ∧
    deleteCalls (registerAuthenticator envCancelDeleteFails [AuthPurpose.login] AuthType.totp none none).2
      = [ApiCall.deleteAuthenticator "abc"] ∧
    (registerAuthenticator envCancelDeleteFails [AuthPurpose.login] AuthType.totp none none).1
      = .error ⟨ErrorCode.serverError, "boom"⟩ ∧
    (⟨ErrorCode.serverError, "boom"⟩ : Err)
      ≠ ⟨ErrorCode.authenticationFailed, "Setup Canceled"⟩ :=
  ⟨rfl, rfl, rfl, by decide⟩

/-- C6 (amended): in every registration flow where Prepare reports abandoned
or returns no data, `deleteAuthenticator` is called exactly once with the id
from Start; provided that rollback delete succeeds, the flow fails with
`AuthenticationFailed("Setup Canceled")` (if the delete itself fails, its
error is propagated instead). -/
theorem C6_cancel_rollback_and_message (env : Env) (purposes : List AuthPurpose)
    (type : AuthType) (data : Option Data) (device : Option DeviceInfo)
    (res : StartRegisterAuthenticatorResponse)
    (h1 : env.startRegisterAuthenticator ⟨purposes, type, data, device⟩ = .ok res)
    (h2 : _prepareRegisterMFAuthenticator env res = .ok none) :
    deleteCalls (registerAuthenticator env purposes type data device).2
      = [ApiCall.deleteAuthenticator res.id] ∧
    (∀ u : Unit, env.deleteAuthenticator res.id = .ok u →
      (registerAuthenticator env purposes type data device).1
        = .error ⟨ErrorCode.authenticationFailed, "Setup Canceled"⟩) := by
  constructor
  · cases hdel : env.deleteAuthenticator res.id <;>
      simp [registerAuthenticator, registerTry, deleteCalls, h1, h2, hdel]
  · intro u hdel
    simp [registerAuthenticator, registerTry, h1, h2, hdel]

/-- C6, witness: concrete canceled flow with a succeeding rollback — one
delete call with the Start id and the `"Setup Canceled"` error. -/
theorem C6_witness :
    deleteCalls (registerAuthenticator envCancel [AuthPurpose.login] AuthType.totp none none).2
      = [ApiCall.deleteAuthenticator "abc"] ∧
    (registerAuthenticator envCancel [AuthPurpose.login] AuthType.totp none none).1
      = .error ⟨ErrorCode.authenticationFailed, "Setup Canceled"⟩ :=
  have h := C6_cancel_rollback_and_message envCancel [AuthPurpose.login] AuthType.totp
    none none ⟨"abc", AuthType.totp, "challenge"⟩ rfl rfl
  ⟨h.1, h.2 () rfl⟩

/-- C7: in every authentication flow where Prepare reports abandoned or an
empty result, `getAuthToken` fails with
`AuthenticationFailed("Request was canceled.")` and its whole trace is the
single `startAuthRequest` call — in particular no `completeAuthRequest` and
no cleanup call is made after the failure. -/
theorem C7_auth_cancel_terminal (env : Env) (purpose : AuthPurpose)
    (type : Option AuthType) (email : Option String) (aid : Option String)
    (aidx : Option Nat) (res : StartAuthRequestResponse)
    (h1 : env.startAuthRequest ⟨email, type, purpose, aid, aidx⟩ = .ok res)
    (h2 : _prepareCompleteAuthRequest env res = .ok none) :
    (getAuthToken env purpose type email aid aidx).1
      = .error ⟨ErrorCode.authenticationFailed, "Request was canceled."⟩ ∧
    (getAuthToken env purpose type email aid aidx).2
      = [ApiCall.startAuthRequest ⟨email, type, purpose, aid, aidx⟩] := by
  constructor <;> simp [getAuthToken, h1, h2]

/-- C7, witness: concrete canceled authentication flow — the
`"Request was canceled."` error and a trace holding only the Start call. -/
theorem C7_witness :
    (getAuthToken envCancel AuthPurpose.login none none none none).1
      = .error ⟨ErrorCode.authenticationFailed, "Request was canceled."⟩ ∧
    (getAuthToken envCancel AuthPurpose.login none none none none).2
      = [ApiCall.startAuthRequest ⟨none, none, AuthPurpose.login, none, none⟩] :=
  C7_auth_cancel_terminal envCancel AuthPurpose.login none none none none
    ⟨"req1", AuthType.email, "challenge", "t1"⟩ rfl rfl

/-- C8: no authentication flow ever makes a `deleteAuthenticator` call — for
every environment, arguments and outcome, the trace of `getAuthToken`
contains no delete call. -/
theorem C8_no_delete_in_auth_flows (env : Env) (purpose : AuthPurpose)
    (type : Option AuthType) (email : Option String) (aid : Option String)
    (aidx : Option Nat) :
    deleteCalls (getAuthToken env purpose type email aid aidx).2 = [] := by
  cases h1 : env.startAuthRequest ⟨email, type, purpose, aid, aidx⟩ with
  | error e => simp [getAuthToken, deleteCalls, h1]
  | ok res =>
      cases h2 : _prepareCompleteAuthRequest env res with
      | error e => simp [getAuthToken, deleteCalls, h1, h2]
      | ok o =>
          cases o with
          | none => simp [getAuthToken, deleteCalls, h1, h2]
          | some d =>
              cases h3 : env.completeAuthRequest ⟨res.id, d, email⟩ <;>
                simp [getAuthToken, deleteCalls, h1, h2, h3]

/-- Helper: the `try` block of a registration flow succeeds only with the id
of the Start response it was given. -/
theorem registerTry_ok_id (env : Env) (res : StartRegisterAuthenticatorResponse)
    (i : String) (calls : List ApiCall)
    (h : registerTry env res = (.ok i, calls)) : i = res.id := by
  unfold registerTry at h
  cases hp : _prepareRegisterMFAuthenticator env res with
  | error e => rw [hp] at h; simp at h
  | ok o =>
      cases o with
      | none => rw [hp] at h; simp at h
      | some prep =>
          rw [hp] at h
          cases hc : env.completeRegisterAuthenticator ⟨res.id, prep⟩ with
          | error e => simp [hc] at h
          | ok u =>
              simp [hc] at h
              exact h.1.symm

/-- C9: every registration flow that completes successfully returns exactly
the id produced by its own `startRegisterAuthenticator` call. -/
theorem C9_success_returns_start_id (env : Env) (purposes : List AuthPurpose)
    (type : AuthType) (data : Option Data) (device : Option DeviceInfo)
    (res : StartRegisterAuthenticatorResponse) (x : String)
    (h1 : env.startRegisterAuthenticator ⟨purposes, type, data, device⟩ = .ok res)
    (h2 : (registerAuthenticator env purposes type data device).1 = .ok x) :
    x = res.id := by
  rcases hr : registerTry env res with ⟨r, calls⟩
  cases r with
  | ok i =>
      have hx : i = x := by
        simp [registerAuthenticator, h1, hr] at h2
        exact h2
      exact hx ▸ registerTry_ok_id env res i calls hr
  | error e =>
      cases hdel : env.deleteAuthenticator res.id <;>
        simp [registerAuthenticator, h1, hr, hdel] at h2

/-- C9, witness: concrete successful registration — Start produced `"abc"`
and the flow returned `"abc"`. -/
theorem C9_witness :
    (registerAuthenticator okEnv [AuthPurpose.login] AuthType.totp none none).1
      = .ok "abc" ∧
    ("abc" : String) = "abc" :=
  ⟨rfl,
   C9_success_returns_start_id okEnv [AuthPurpose.login] AuthType.totp none none
     ⟨"abc", AuthType.totp, "challenge"⟩ "abc" rfl rfl⟩

/-- C10: the capability registry reports a type supported exactly when it is
`Email`, `Totp`, or a WebAuthn kind the WebAuthn client supports; `Email`
and `Totp` are always supported, `OpenID` never is — even though both
prepare dispatchers implement an OpenID strategy branch (they forward to the
OpenID client rather than raising the unsupported-type error). -/
theorem C10_capability_registry (env : Env) (t : AuthType)
    (res1 : StartRegisterAuthenticatorResponse) (res2 : StartAuthRequestResponse)
    (h1 : res1.type = AuthType.openID) (h2 : res2.type = AuthType.openID) :
    (supportsAuthType env t = true ↔
      (t = AuthType.email ∨ t = AuthType.totp ∨
        ((t = AuthType.webAuthnPlatform ∨ t = AuthType.webAuthnPortable) ∧
          env.webAuthnSupportsType t = true))) ∧
    supportsAuthType env AuthType.email = true ∧
    supportsAuthType env AuthType.totp = true ∧
    supportsAuthType env AuthType.openID = false ∧
    _prepareRegisterMFAuthenticator env res1 = env.openIdPrepareRegistration res1.data ∧
    _prepareCompleteAuthRequest env res2 = env.openIdPrepareAuthentication res2.data := by
  refine ⟨?_, ?_, ?_, ?_, ?_, ?_⟩
  · cases t <;>
      cases hp : env.webAuthnSupportsType AuthType.webAuthnPlatform <;>
      cases hq : env.webAuthnSupportsType AuthType.webAuthnPortable <;>
      simp [supportsAuthType, hp, hq]
  · simp [supportsAuthType]
  · simp [supportsAuthType]
  · cases hp : env.webAuthnSupportsType AuthType.webAuthnPlatform <;>
      cases hq : env.webAuthnSupportsType AuthType.webAuthnPortable <;>
      simp [supportsAuthType, hp, hq]
  · rcases res1 with ⟨i, ty, d⟩
    simp only at h1
    subst h1
    rfl
  · rcases res2 with ⟨i, ty, d, tok⟩
    simp only at h2
    subst h2
    rfl

/-- C10, witness: the registry characterization at a concrete environment and
type, and the OpenID dispatch equations at concrete responses. -/
theorem C10_witness :
    (supportsAuthType okEnv AuthType.email = true ↔
      (AuthType.email = AuthType.email ∨ AuthType.email = AuthType.totp ∨
        ((AuthType.email = AuthType.webAuthnPlatform ∨
            AuthType.email = AuthType.webAuthnPortable) ∧
          okEnv.webAuthnSupportsType AuthType.email = true))) ∧
    supportsAuthType okEnv AuthType.email = true ∧
    supportsAuthType okEnv AuthType.totp = true ∧
    supportsAuthType okEnv AuthType.openID = false ∧
    _prepareRegisterMFAuthenticator okEnv ⟨"x", AuthType.openID, "d"⟩
      = okEnv.openIdPrepareRegistration "d" ∧
    _prepareCompleteAuthRequest okEnv ⟨"y", AuthType.openID, "d", "tok"⟩
      = okEnv.openIdPrepareAuthentication "d" :=
  C10_capability_registry okEnv AuthType.email ⟨"x", AuthType.openID, "d"⟩
    ⟨"y", AuthType.openID, "d", "tok"⟩ rfl rfl

end Padloc
